import Mathlib

/-!
Shallow embedding of the CST816S capacitive touch-controller driver
(src/CST816S.cpp) and proofs about its claims.

The two-wire bus (Arduino Wire) is modelled as an oracle `Bus`: the
completion status that Wire.endTransmission reports for the address-write
phase of the current transaction, and the byte stream that successive
Wire.read() calls return.  Each call to a transport helper is logged as one
`Transaction`, so theorems can speak about exactly which bus traffic an
operation performs.  Bytes are Nat values; conversions from C int to
uint8_t are made explicit with mod 256.
-/

/-- Conversion of a C int to uint8_t: reduction modulo 256 (so -1 becomes 255). -/
def u8ofInt (i : Int) : Nat := (i % 256).toNat

/-- Modelled from the spec: the bus device address of the chip, a constant
from the missing header CST816S.h.  Its concrete value is irrelevant to
every claim; it only tags the transaction log. -/
def CST816S_ADDRESS : Nat := 0x15

/-- One addressed bus transaction, as the driver attempts it: a read of
`len` bytes from a device register, or a write of a payload to one. -/
inductive Transaction where
  | read (addr reg len : Nat)
  | write (addr reg : Nat) (payload : List Nat)
deriving DecidableEq

/-- Oracle for the behaviour of the bus during one transaction:
`endStatus` is what Wire.endTransmission returns for the address-write
phase (0 = success), `stream` gives the byte Wire.read() returns on its
i-th call. -/
structure Bus where
  endStatus : Nat
  stream : Nat → Nat

/-- CST816S::i2c_read (src/CST816S.cpp lines 296-308): writes the register
address; if endTransmission reports nonzero it returns uint8_t(-1) = 255
without touching the buffer of the caller; otherwise it requests and stores
`length` bytes in the order received (each Wire.read() int truncated to a
byte) and returns 0.  Result: (status, buffer after the call, log). -/
def i2c_read (bus : Bus) (addr reg_addr : Nat) (reg_data : List Nat)
    (length : Nat) : Nat × List Nat × List Transaction :=
  if bus.endStatus ≠ 0 then
    (u8ofInt (-1), reg_data, [Transaction.read addr reg_addr length])
  else
    (0, (List.range length).map (fun i => bus.stream i % 256) ++ reg_data.drop length,
      [Transaction.read addr reg_addr length])

/-- CST816S::i2c_write (src/CST816S.cpp lines 322-333): writes the register
address and the first `length` payload bytes, then returns uint8_t(-1) = 255
if endTransmission reports nonzero, else 0.  Result: (status, log). -/
def i2c_write (bus : Bus) (addr reg_addr : Nat) (reg_data : List Nat)
    (length : Nat) : Nat × List Transaction :=
  ((if bus.endStatus ≠ 0 then u8ofInt (-1) else 0),
    [Transaction.write addr reg_addr (reg_data.take length)])

/-- The touch-event record `data` of the driver (struct data_struct).  Modelled
from the spec: the struct itself lives in the missing header CST816S.h; per
the spec, x and y hold the full reconstructed 12-bit range [0, 4095], the
other decoded fields hold one byte each. -/
structure data_struct where
  gestureID : Nat
  points : Nat
  event : Nat
  x : Nat
  y : Nat
  version : Nat
  versionInfo : List Nat
deriving DecidableEq

/-- Driver instance state relevant to the claims: the touch-event record
and the pending-event flag `_event_available` (false at construction).
Pin numbers and the user callback do not influence any claim: the user
callback runs in the ISR but cannot alter this state. -/
structure CST816S where
  data : data_struct
  event_available : Bool
deriving DecidableEq

namespace CST816S

/-- Modelled from the spec: gesture code NONE from the missing header CST816S.h. -/
def NONE : Nat := 0x00

/-- Modelled from the spec: gesture code SWIPE_DOWN from the missing header CST816S.h. -/
def SWIPE_DOWN : Nat := 0x01

/-- Modelled from the spec: gesture code SWIPE_UP from the missing header CST816S.h. -/
def SWIPE_UP : Nat := 0x02

/-- Modelled from the spec: gesture code SWIPE_LEFT from the missing header CST816S.h. -/
def SWIPE_LEFT : Nat := 0x03

/-- Modelled from the spec: gesture code SWIPE_RIGHT from the missing header CST816S.h. -/
def SWIPE_RIGHT : Nat := 0x04

/-- Modelled from the spec: gesture code SINGLE_CLICK from the missing header CST816S.h. -/
def SINGLE_CLICK : Nat := 0x05

/-- Modelled from the spec: gesture code DOUBLE_CLICK from the missing header CST816S.h. -/
def DOUBLE_CLICK : Nat := 0x0B

/-- Modelled from the spec: gesture code LONG_PRESS from the missing header CST816S.h. -/
def LONG_PRESS : Nat := 0x0C

/-- The defined gesture codes (the cases of the switch in CST816S::gesture). -/
def gestureCodes : List Nat :=
  [NONE, SWIPE_DOWN, SWIPE_UP, SWIPE_LEFT, SWIPE_RIGHT, SINGLE_CLICK,
    DOUBLE_CLICK, LONG_PRESS]

/-- CST816S::read_touch (src/CST816S.cpp lines 53-63).  `data_raw` is the
local byte data_raw[8] buffer, whose initial contents are indeterminate and
therefore a parameter here.  As in the source, the status that i2c_read
returns is ignored, and every decoded field of `data` is assigned
unconditionally from the buffer. -/
def read_touch (bus : Bus) (data_raw : List Nat) (self : CST816S) :
    CST816S × List Transaction :=
  let r := i2c_read bus CST816S_ADDRESS 0x01 data_raw 6
  let raw := r.2.1
  ({ self with
      data := { self.data with
        gestureID := raw.getD 0 0
        points := raw.getD 1 0
        event := raw.getD 2 0 >>> 6
        x := ((raw.getD 2 0 &&& 0xF) <<< 8) + raw.getD 3 0
        y := ((raw.getD 4 0 &&& 0xF) <<< 8) + raw.getD 5 0 } },
    r.2.2)

/-- CST816S::handleISR (src/CST816S.cpp lines 68-76): sets the
pending-event flag; the optional user callback it then invokes is external
code that cannot touch the driver state. -/
def handleISR (self : CST816S) : CST816S :=
  { self with event_available := true }

/-- CST816S::available (src/CST816S.cpp lines 224-233): if the flag is
set, decode (read_touch), clear the flag and report true; otherwise do
nothing and report false.  Result: (state, returned Bool, bus log). -/
def available (bus : Bus) (data_raw : List Nat) (self : CST816S) :
    CST816S × Bool × List Transaction :=
  if self.event_available then
    let r := read_touch bus data_raw self
    ({ r.1 with event_available := false }, true, r.2)
  else
    (self, false, [])

/-- CST816S::set_motion_mask (src/CST816S.cpp lines 103-106): a void
function; the i2c_write status is discarded. -/
def set_motion_mask (bus : Bus) (mask : Nat) : Unit × List Transaction :=
  ((), (i2c_write bus CST816S_ADDRESS 0xEC [mask] 1).2)

/-- CST816S::set_irq_control (src/CST816S.cpp lines 130-133): a void
function; the i2c_write status is discarded. -/
def set_irq_control (bus : Bus) (mask : Nat) : Unit × List Transaction :=
  ((), (i2c_write bus CST816S_ADDRESS 0xFA [mask] 1).2)

/-- CST816S::enable_double_click (src/CST816S.cpp lines 82-86): writes
0x01 to the motion-mask register; void. -/
def enable_double_click (bus : Bus) : Unit × List Transaction :=
  ((), (i2c_write bus CST816S_ADDRESS 0xEC [0x01] 1).2)

/-- CST816S::enable_double_click_interrupt_only (src/CST816S.cpp lines
139-146): set_motion_mask(0x01) then set_irq_control(0x10); void. -/
def enable_double_click_interrupt_only (bus : Bus) : Unit × List Transaction :=
  ((), (set_motion_mask bus 0x01).2 ++ (set_irq_control bus 0x10).2)

/-- CST816S::disable_auto_sleep (src/CST816S.cpp lines 152-156): writes
0xFE to register 0xFE; void. -/
def disable_auto_sleep (bus : Bus) : Unit × List Transaction :=
  ((), (i2c_write bus CST816S_ADDRESS 0xFE [0xFE] 1).2)

/-- CST816S::enable_auto_sleep (src/CST816S.cpp lines 161-165): writes
0x00 to register 0xFE; void. -/
def enable_auto_sleep (bus : Bus) : Unit × List Transaction :=
  ((), (i2c_write bus CST816S_ADDRESS 0xFE [0x00] 1).2)

/-- CST816S::set_auto_sleep_time (src/CST816S.cpp lines 171-184): clamps
the int argument to [1, 255], converts it to a byte (static_cast, mod 256)
and writes it to register 0xF9; void, the i2c_write status discarded. -/
def set_auto_sleep_time (bus : Bus) (seconds : Int) : Unit × List Transaction :=
  let seconds := if seconds < 1 then 1 else if seconds > 255 then 255 else seconds
  let sleepTime := (seconds % 256).toNat
  ((), (i2c_write bus CST816S_ADDRESS 0xF9 [sleepTime] 1).2)

/-- CST816S::sleep (src/CST816S.cpp lines 238-246): pulses the reset line
(digital I/O and delays, outside the bus log) then writes 0x03 to register
0xA5; void, the i2c_write status discarded. -/
def sleep (bus : Bus) : Unit × List Transaction :=
  ((), (i2c_write bus CST816S_ADDRESS 0xA5 [0x03] 1).2)

/-- CST816S::gesture (src/CST816S.cpp lines 251-283): the switch on the
stored gestureID, as a pure lookup. -/
def gesture (self : CST816S) : String :=
  if self.data.gestureID = NONE then "NONE"
  else if self.data.gestureID = SWIPE_DOWN then "SWIPE DOWN"
  else if self.data.gestureID = SWIPE_UP then "SWIPE UP"
  else if self.data.gestureID = SWIPE_LEFT then "SWIPE LEFT"
  else if self.data.gestureID = SWIPE_RIGHT then "SWIPE RIGHT"
  else if self.data.gestureID = SINGLE_CLICK then "SINGLE CLICK"
  else if self.data.gestureID = DOUBLE_CLICK then "DOUBLE CLICK"
  else if self.data.gestureID = LONG_PRESS then "LONG PRESS"
  else "UNKNOWN"

end CST816S

open CST816S

/-! Concrete fixtures used by witnesses and counterexamples. -/

/-- A zeroed local buffer, as one possible content of byte data_raw[8]. -/
def rawZeros : List Nat := [0, 0, 0, 0, 0, 0, 0, 0]

/-- One possible indeterminate content of the local byte data_raw[8]. -/
def rawGarbage : List Nat := [9, 8, 7, 6, 5, 4, 3, 2]

/-- A freshly constructed driver state: zeroed event, flag down. -/
def sIdle : CST816S := ⟨⟨0, 0, 0, 0, 0, 0, [0, 0, 0]⟩, false⟩

/-- A driver state holding a previously decoded event, flag up. -/
def sTouched : CST816S := ⟨⟨5, 1, 2, 100, 200, 0xB4, [1, 2, 3]⟩, true⟩

/-- A bus on which the address-write phase succeeds and the reads return
the given 6-byte packet. -/
def busPacket : Bus := ⟨0, fun i => [3, 1, 0x85, 0x10, 0x02, 0x20].getD i 0⟩

/-- A bus on which the address-write phase fails (endTransmission = 4). -/
def busDown : Bus := ⟨4, fun _ => 0⟩

/-- A bus on which every transaction succeeds and reads return 0. -/
def busUp : Bus := ⟨0, fun _ => 0⟩

/-! Helper lemmas shared by the claim theorems. -/

/-- u8ofInt sends the C value -1 to the byte 255. -/
theorem u8ofInt_neg_one : u8ofInt (-1) = 255 := by decide

/-- Whatever the bus does, one call of read_touch attempts exactly one read
transaction: 6 bytes from register 0x01. -/
theorem read_touch_log (bus : Bus) (raw : List Nat) (s : CST816S) :
    (read_touch bus raw s).2 = [Transaction.read CST816S_ADDRESS 0x01 6] := by
  unfold read_touch i2c_read
  split <;> rfl

/-- On a bus whose reads deliver the 6-byte packet b0..b5, read_touch stores
the decoded packet (each incoming int truncated to a byte). -/
theorem read_touch_success_data (b0 b1 b2 b3 b4 b5 : Nat) (raw : List Nat)
    (s : CST816S) :
    ((read_touch ⟨0, fun i => [b0, b1, b2, b3, b4, b5].getD i 0⟩ raw s).1).data =
      { s.data with
        gestureID := b0 % 256
        points := b1 % 256
        event := (b2 % 256) >>> 6
        x := ((b2 % 256 &&& 0xF) <<< 8) + b3 % 256
        y := ((b4 % 256 &&& 0xF) <<< 8) + b5 % 256 } := rfl

/-- Any positive number of edge-handler runs leaves the pending flag set. -/
theorem handleISR_iterate_flag (n : Nat) (hn : 1 ≤ n) (s : CST816S) :
    (handleISR^[n] s).event_available = true := by
  obtain ⟨m, rfl⟩ : ∃ m, n = m + 1 := ⟨n - 1, by omega⟩
  rw [Function.iterate_succ_apply']
  rfl

/-- With the pending flag down, available does nothing: it returns false,
performs no transaction and leaves the state as it was. -/
theorem available_idle (bus : Bus) (raw : List Nat) (s : CST816S)
    (h : s.event_available = false) :
    available bus raw s = (s, false, []) := by
  simp [available, h]

/-! The claims. -/

/-- C1 (amended): if the address-write phase of the decode read fails,
read_touch nonetheless overwrites every decoded field of the TouchEvent,
taking the values from the pre-existing (indeterminate) contents of the
local buffer, which the failed i2c_read leaves untouched; only the flag and
the version fields keep their prior values.  Decode is not all-or-nothing:
the status of i2c_read is ignored and the assignments are unconditional. -/
theorem C1_failed_decode_still_overwrites (bus : Bus) (raw : List Nat)
    (s : CST816S) (h : bus.endStatus ≠ 0) :
    (read_touch bus raw s).1.data =
        { s.data with
          gestureID := raw.getD 0 0
          points := raw.getD 1 0
          event := raw.getD 2 0 >>> 6
          x := ((raw.getD 2 0 &&& 0xF) <<< 8) + raw.getD 3 0
          y := ((raw.getD 4 0 &&& 0xF) <<< 8) + raw.getD 5 0 } ∧
      (read_touch bus raw s).1.event_available = s.event_available := by
  constructor
  · simp [read_touch, i2c_read, h]
  · rfl

/-- C1 witness: the amended statement at a failed concrete bus, a concrete
garbage buffer and a concrete prior state. -/
theorem C1_failed_decode_still_overwrites_witness :
    (read_touch busDown rawGarbage sTouched).1.data =
        { sTouched.data with
          gestureID := rawGarbage.getD 0 0
          points := rawGarbage.getD 1 0
          event := rawGarbage.getD 2 0 >>> 6
          x := ((rawGarbage.getD 2 0 &&& 0xF) <<< 8) + rawGarbage.getD 3 0
          y := ((rawGarbage.getD 4 0 &&& 0xF) <<< 8) + rawGarbage.getD 5 0 } ∧
      (read_touch busDown rawGarbage sTouched).1.event_available =
        sTouched.event_available :=
  C1_failed_decode_still_overwrites busDown rawGarbage sTouched (by decide)

/-- C1 counterexample: a poll over a failed bus (address-write status 4)
still reports true and overwrites the previously decoded TouchEvent with
values decoded from buffer garbage, so the claim that every field keeps the
value it held before the call is false. -/
theorem C1_cex :
    (available busDown rawGarbage sTouched).2.1 = true ∧
      ¬((available busDown rawGarbage sTouched).1.data = sTouched.data) := by
  decide

/-- C2: for every 6-byte packet delivered from register 0x01, the decoded
coordinates are x = ((byte2 AND 0xF) shifted left 8) + byte3 and
y = ((byte4 AND 0xF) shifted left 8) + byte5, each within [0, 4095]. -/
theorem C2_coordinate_decode (b0 b1 b2 b3 b4 b5 : Nat) (raw : List Nat)
    (s : CST816S) (h2 : b2 < 256) (h3 : b3 < 256) (h4 : b4 < 256)
    (h5 : b5 < 256) :
    ((read_touch ⟨0, fun i => [b0, b1, b2, b3, b4, b5].getD i 0⟩ raw s).1).data.x =
        ((b2 &&& 0xF) <<< 8) + b3 ∧
      ((read_touch ⟨0, fun i => [b0, b1, b2, b3, b4, b5].getD i 0⟩ raw s).1).data.y =
        ((b4 &&& 0xF) <<< 8) + b5 ∧
      ((read_touch ⟨0, fun i => [b0, b1, b2, b3, b4, b5].getD i 0⟩ raw s).1).data.x ≤ 4095 ∧
      ((read_touch ⟨0, fun i => [b0, b1, b2, b3, b4, b5].getD i 0⟩ raw s).1).data.y ≤ 4095 := by
  have hd := read_touch_success_data b0 b1 b2 b3 b4 b5 raw s
  rw [Nat.mod_eq_of_lt h2, Nat.mod_eq_of_lt h3, Nat.mod_eq_of_lt h4,
    Nat.mod_eq_of_lt h5] at hd
  have hx : b2 &&& 0xF ≤ 0xF := Nat.and_le_right
  have hy : b4 &&& 0xF ≤ 0xF := Nat.and_le_right
  have hsx : (b2 &&& 0xF) <<< 8 = (b2 &&& 0xF) * 256 := by
    rw [Nat.shiftLeft_eq]
  have hsy : (b4 &&& 0xF) <<< 8 = (b4 &&& 0xF) * 256 := by
    rw [Nat.shiftLeft_eq]
  refine ⟨by rw [hd], by rw [hd], ?_, ?_⟩
  · rw [hd]
    show ((b2 &&& 0xF) <<< 8) + b3 ≤ 4095
    omega
  · rw [hd]
    show ((b4 &&& 0xF) <<< 8) + b5 ≤ 4095
    omega

/-- C2 witness: the packet 3, 1, 0x85, 0x10, 0x02, 0x20 decodes to
x = 0x510 and y = 0x220, both within range. -/
theorem C2_coordinate_decode_witness :
    ((read_touch ⟨0, fun i => [3, 1, 133, 16, 2, 32].getD i 0⟩ rawZeros sIdle).1).data.x =
        ((133 &&& 0xF) <<< 8) + 16 ∧
      ((read_touch ⟨0, fun i => [3, 1, 133, 16, 2, 32].getD i 0⟩ rawZeros sIdle).1).data.y =
        ((2 &&& 0xF) <<< 8) + 32 ∧
      ((read_touch ⟨0, fun i => [3, 1, 133, 16, 2, 32].getD i 0⟩ rawZeros sIdle).1).data.x ≤ 4095 ∧
      ((read_touch ⟨0, fun i => [3, 1, 133, 16, 2, 32].getD i 0⟩ rawZeros sIdle).1).data.y ≤ 4095 :=
  C2_coordinate_decode 3 1 133 16 2 32 rawZeros sIdle (by decide) (by decide)
    (by decide) (by decide)

/-- C3: edges coalesce.  However many edge-handler runs (n at least 1)
occur between two polls, the next poll performs exactly one decode
transaction (one 6-byte read of register 0x01) and returns true, leaves
the flag down, and every subsequent poll returns false with no bus traffic
and an unchanged state, until another edge. -/
theorem C3_edge_coalescing (n : Nat) (bus : Bus) (raw : List Nat)
    (s : CST816S) (hn : 1 ≤ n) :
    (available bus raw (handleISR^[n] s)).2.1 = true ∧
      (available bus raw (handleISR^[n] s)).2.2 =
        [Transaction.read CST816S_ADDRESS 0x01 6] ∧
      (available bus raw (handleISR^[n] s)).1.event_available = false ∧
      (∀ (b : Bus) (r : List Nat),
        available b r (available bus raw (handleISR^[n] s)).1 =
          ((available bus raw (handleISR^[n] s)).1, false, [])) := by
  have hflag := handleISR_iterate_flag n hn s
  refine ⟨?_, ?_, ?_, ?_⟩
  · simp [available, hflag]
  · simp [available, hflag, read_touch_log]
  · simp [available, hflag]
  · intro b r
    exact available_idle b r _ (by simp [available, hflag])

/-- C3 witness: three edges before one poll give one read transaction and
one true result; the following poll is a no-op returning false. -/
theorem C3_edge_coalescing_witness :
    (available busPacket rawZeros (handleISR^[3] sIdle)).2.1 = true ∧
      (available busPacket rawZeros (handleISR^[3] sIdle)).2.2 =
        [Transaction.read CST816S_ADDRESS 0x01 6] ∧
      (available busPacket rawZeros (handleISR^[3] sIdle)).1.event_available = false ∧
      (∀ (b : Bus) (r : List Nat),
        available b r (available busPacket rawZeros (handleISR^[3] sIdle)).1 =
          ((available busPacket rawZeros (handleISR^[3] sIdle)).1, false, [])) :=
  C3_edge_coalescing 3 busPacket rawZeros sIdle (by decide)

/-- C4: with the pending-event flag unset, available returns false,
performs no bus transaction and leaves the TouchEvent and the flag
unchanged (the whole state is returned as it was). -/
theorem C4_idle_poll_no_io (bus : Bus) (raw : List Nat) (s : CST816S)
    (h : s.event_available = false) :
    available bus raw s = (s, false, []) := by
  simp [available, h]

/-- C4 witness: a freshly constructed driver polled on a live bus. -/
theorem C4_idle_poll_no_io_witness :
    available busUp rawZeros sIdle = (sIdle, false, []) :=
  C4_idle_poll_no_io busUp rawZeros sIdle (by decide)

/-- C5: set_auto_sleep_time performs exactly one single-byte write to
register 0xF9, and the byte written is the clamp of the int argument to
[1, 255]: below 1 gives 1, above 255 gives 255, in range gives the value
itself. -/
theorem C5_auto_sleep_time_clamps (bus : Bus) (seconds : Int) :
    ∃ b : Nat, (set_auto_sleep_time bus seconds).2 =
        [Transaction.write CST816S_ADDRESS 0xF9 [b]] ∧
      (seconds < 1 → b = 1) ∧ (255 < seconds → b = 255) ∧
      (1 ≤ seconds → seconds ≤ 255 → (b : Int) = seconds) := by
  refine ⟨((if seconds < 1 then (1 : Int)
      else if seconds > 255 then 255 else seconds) % 256).toNat, rfl, ?_, ?_, ?_⟩
  · intro h
    rw [if_pos h]
    decide
  · intro h
    rw [if_neg (by omega), if_pos h]
    decide
  · intro h1 h2
    rw [if_neg (by omega), if_neg (by omega)]
    omega

/-- C6 counterexample: on a failing bus and on a succeeding bus the
underlying i2c_write statuses differ (255 against 0), yet set_motion_mask
hands its caller the same value in both cases; a void configuration
operation does not return the transport result. -/
theorem C6_cex :
    (i2c_write busDown CST816S_ADDRESS 0xEC [1] 1).1 = 255 ∧
      (i2c_write busUp CST816S_ADDRESS 0xEC [1] 1).1 = 0 ∧
      (set_motion_mask busDown 1).1 = (set_motion_mask busUp 1).1 := by
  refine ⟨by decide, by decide, rfl⟩

/-- C6 (amended): every configuration operation is a void function: it
returns the unit value to its caller whatever the bus outcome, discarding
the i2c_write status, which is 255 exactly when the transport failed. -/
theorem C6_config_returns_void (bus : Bus) (mask : Nat) (seconds : Int) :
    (set_motion_mask bus mask).1 = () ∧
      (set_irq_control bus mask).1 = () ∧
      (enable_double_click bus).1 = () ∧
      (enable_double_click_interrupt_only bus).1 = () ∧
      (disable_auto_sleep bus).1 = () ∧
      (enable_auto_sleep bus).1 = () ∧
      (set_auto_sleep_time bus seconds).1 = () ∧
      (CST816S.sleep bus).1 = () ∧
      (bus.endStatus ≠ 0 → (i2c_write bus CST816S_ADDRESS 0xEC [mask] 1).1 = 255) := by
  refine ⟨rfl, rfl, rfl, rfl, rfl, rfl, rfl, rfl, ?_⟩
  intro h
  simp [i2c_write, h, u8ofInt_neg_one]

/-- C7: enable_double_click_interrupt_only performs exactly two single-byte
writes and nothing else: 0x01 to register 0xEC, then 0x10 to register
0xFA, in that order. -/
theorem C7_double_click_interrupt_only_writes (bus : Bus) :
    (enable_double_click_interrupt_only bus).2 =
        [Transaction.write CST816S_ADDRESS 0xEC [0x01],
          Transaction.write CST816S_ADDRESS 0xFA [0x10]] ∧
      (enable_double_click_interrupt_only bus).2.length = 2 :=
  ⟨rfl, rfl⟩

/-- C8: gesture is a pure lookup of the stored gesture byte: the
double-click code maps to "DOUBLE CLICK", every byte outside the defined
code set maps to "UNKNOWN", and the result depends on nothing but the
stored gestureID (so there is no state change and no bus traffic). -/
theorem C8_gesture_lookup (s : CST816S) (g : Nat) (hg : g ∉ gestureCodes) :
    gesture { s with data := { s.data with gestureID := DOUBLE_CLICK } } =
        "DOUBLE CLICK" ∧
      gesture { s with data := { s.data with gestureID := g } } = "UNKNOWN" ∧
      (∀ t u : CST816S, t.data.gestureID = u.data.gestureID →
        t.gesture = u.gesture) := by
  refine ⟨rfl, ?_, ?_⟩
  · simp [gestureCodes, NONE, SWIPE_DOWN, SWIPE_UP, SWIPE_LEFT, SWIPE_RIGHT,
      SINGLE_CLICK, DOUBLE_CLICK, LONG_PRESS] at hg
    simp [gesture, NONE, SWIPE_DOWN, SWIPE_UP, SWIPE_LEFT, SWIPE_RIGHT,
      SINGLE_CLICK, DOUBLE_CLICK, LONG_PRESS, hg]
  · intro t u h
    unfold gesture
    rw [h]

/-- C8 witness: code 0x0B gives "DOUBLE CLICK" and the undefined code 0xFF
gives "UNKNOWN" on a concrete state. -/
theorem C8_gesture_lookup_witness :
    gesture { sTouched with data := { sTouched.data with gestureID := DOUBLE_CLICK } } =
        "DOUBLE CLICK" ∧
      gesture { sTouched with data := { sTouched.data with gestureID := 255 } } =
        "UNKNOWN" ∧
      (∀ t u : CST816S, t.data.gestureID = u.data.gestureID →
        t.gesture = u.gesture) :=
  C8_gesture_lookup sTouched 255 (by decide)

/-- C9: i2c_read reports failure exactly when the address-write phase
reports nonzero completion status; on failure the buffer of the caller is
untouched; on success exactly `len` bytes are stored, in the order the bus
delivers them, and the rest of the buffer is untouched. -/
theorem C9_read_error_contract (bus : Bus) (addr reg : Nat) (buf : List Nat)
    (len : Nat) :
    ((i2c_read bus addr reg buf len).1 ≠ 0 ↔ bus.endStatus ≠ 0) ∧
      (bus.endStatus ≠ 0 → (i2c_read bus addr reg buf len).2.1 = buf) ∧
      (bus.endStatus = 0 →
        (i2c_read bus addr reg buf len).2.1.take len =
            (List.range len).map (fun i => bus.stream i % 256) ∧
          (i2c_read bus addr reg buf len).2.1.drop len = buf.drop len) := by
  by_cases h : bus.endStatus = 0
  · refine ⟨?_, ?_, ?_⟩ <;> simp [i2c_read, h]
  · refine ⟨?_, ?_, ?_⟩ <;> simp [i2c_read, h, u8ofInt_neg_one]

/-- C10: both transport helpers return only the bytes 0 (success) and 255
(the C value -1 as uint8_t), and the result is nonzero exactly when the
transaction failed. -/
theorem C10_transport_status_values (bus : Bus) (addr reg : Nat)
    (buf : List Nat) (len : Nat) :
    ((i2c_read bus addr reg buf len).1 = 0 ∨
        (i2c_read bus addr reg buf len).1 = 255) ∧
      ((i2c_read bus addr reg buf len).1 ≠ 0 ↔ bus.endStatus ≠ 0) ∧
      ((i2c_write bus addr reg buf len).1 = 0 ∨
        (i2c_write bus addr reg buf len).1 = 255) ∧
      ((i2c_write bus addr reg buf len).1 ≠ 0 ↔ bus.endStatus ≠ 0) := by
  by_cases h : bus.endStatus = 0 <;>
    refine ⟨?_, ?_, ?_, ?_⟩ <;>
      simp [i2c_read, i2c_write, h, u8ofInt_neg_one]
